import Mathlib

/-!
Shallow embedding of the dev-orchestration core of `usrz/vite-electron`
(`src/index.ts`): the process supervisor (`startElectron` / `stopElectron`),
the watch aggregator built by `createElectronBuilder`, the restart debouncer
assembled inside `ElectronDevEnvironment.init`, and the session lifecycle
(`init`, `listen`, `close`).  Stateful TypeScript methods become pure
state-transition functions returning the successor state together with the
list of observable effects they perform.  Definitions come first, then the
theorems about them.
-/

namespace ViteElectron

/-- OS process identifier of a spawned Electron child process. -/
abbrev Pid := Nat

/-- Observable side effects performed by the orchestration code. -/
inductive Effect where
  /-- Effect of `stopElectron`: SIGTERM sent to the child, exit awaited. -/
  | killChild (pid : Pid)
  /-- Effect of a successful `spawn(electronPath, ['.'], ...)`. -/
  | spawnChild (pid : Pid)
  /-- Effect of `builder.destroy()`: watchers closed, listeners removed. -/
  | destroyBuilder
  /-- Effect of `server.close()` or `this.server?.close()`. -/
  | closeServer
  /-- Effect of deferring to `super.close()` on the base `DevEnvironment`. -/
  | baseClose
  /-- Effect of the assignment `process.exitCode = c`. -/
  | setExitCode (c : Int)
  /-- Message logged at info level. -/
  | logInfo (msg : String)
  /-- Message logged at warning level. -/
  | logWarn (msg : String)
  /-- Message logged at error level. -/
  | logError (msg : String)
  deriving DecidableEq, Repr

/-- Mutable lifecycle fields of `ElectronDevEnvironment`: `this.childProcess`,
`this.builder` (represented by the names of the rollup watchers it holds) and
`this.server` (collapsed to the resolved local URL
`this.server?.resolvedUrls?.local[0]`, present exactly when the environment
holds a dev-server reference). -/
structure Session where
  childProcess : Option Pid := none
  builder : Option (List String) := none
  server : Option String := none
  deriving DecidableEq, Repr

/-- Transition of `ElectronDevEnvironment.stopElectron` (src/index.ts:223-232):
with no child process it resolves at once and does nothing; otherwise it logs
a warning, sends SIGTERM, awaits the close event and clears the handle.  It
always resolves, never rejects. -/
def stopElectron (s : Session) : Session × List Effect :=
  match s.childProcess with
  | none => (s, [])
  | some pid =>
      ({ s with childProcess := none },
       [Effect.logWarn "Stopping Electron process...", Effect.killChild pid])

/-- Outcome of the OS `spawn` call inside `startElectron`: the pid the new
child would receive, and whether the spawn succeeds (child emits `spawn`) or
fails (child emits `error`, e.g. ENOENT on a missing executable). -/
structure SpawnSpec where
  pid : Pid
  spawnOk : Bool
  deriving DecidableEq, Repr

/-- Transition of `ElectronDevEnvironment.startElectron` (src/index.ts:154-220).
It first awaits `stopElectron`, then resolves the local server URL (throwing
`Cannot start Electron: server URL not available` when no server reference is
held), then spawns the Electron process: on a spawn failure the promise
rejects with that error; on success the child handle is stored and the start
is logged.  Result: (thrown error, successor state, effects performed). -/
def startElectron (spec : SpawnSpec) (s : Session) :
    Option String × Session × List Effect :=
  let (s1, tr1) := stopElectron s
  match s1.server with
  | none => (some "Cannot start Electron: server URL not available", s1, tr1)
  | some _ =>
      if spec.spawnOk then
        (none, { s1 with childProcess := some spec.pid },
         tr1 ++ [Effect.spawnChild spec.pid, Effect.logInfo "Electron process started"])
      else
        (some "spawn ENOENT", s1, tr1)

/-- Restriction of an effect trace to the process-lifecycle effects (child
kills and child spawns). -/
def procEffects (tr : List Effect) : List Effect :=
  tr.filter fun e => match e with
    | Effect.killChild _ => true
    | Effect.spawnChild _ => true
    | _ => false

/-- Lifecycle event emitted by a rollup watcher in watch mode: the rollup
codes START, END and ERROR (carrying the build error). -/
inductive WatchEvent where
  | buildStart
  | buildEnd
  | buildError (msg : String)
  deriving DecidableEq, Repr

/-- State of the watch aggregator's shared event handling
(src/index.ts:104-118): the shared `runningBuilds` counter, the rebuild
errors logged so far, and the number of `onBuildComplete` invocations. -/
structure AggState where
  runningBuilds : Int
  errorsLogged : List String
  buildCompleteSignals : Nat
  deriving DecidableEq, Repr

/-- Handler attached by `createElectronBuilder` to every watcher's event
stream (src/index.ts:107-117): an ERROR event is logged with the originating
environment name and changes nothing else; START increments the shared
`runningBuilds` counter; END decrements it and, exactly when the counter
returns to zero, invokes `onBuildComplete`. -/
def handleWatchEvent (environment : String) (s : AggState) (e : WatchEvent) :
    AggState :=
  match e with
  | .buildError msg =>
      { s with errorsLogged :=
          s.errorsLogged ++ [environment ++ ": Error compiling " ++ msg] }
  | .buildStart => { s with runningBuilds := s.runningBuilds + 1 }
  | .buildEnd =>
      let rb := s.runningBuilds - 1
      { s with runningBuilds := rb,
               buildCompleteSignals :=
                 if rb = 0 then s.buildCompleteSignals + 1
                 else s.buildCompleteSignals }

/-- One vite build environment as seen by `createElectronBuilder`: its name,
its configured consumer, and the outcome of the first terminal event of its
initial watch-mode build (`none` when the first cycle ends with END, `some
err` when it ends with ERROR). -/
structure EnvSpec where
  name : String
  consumer : String
  firstBuildError : Option String
  deriving DecidableEq, Repr

/-- An environment is a watched background target when it is not the served
client environment and its consumer is `client` (src/index.ts:91-92). -/
def isBackground (clientEnvironment : String) (e : EnvSpec) : Bool :=
  (e.name != clientEnvironment) && (e.consumer == "client")

/-- Watcher-collection loop of `createElectronBuilder` (src/index.ts:89-102):
each environment equal to the served client environment or whose consumer is
not `client` is skipped; for every other environment a watch-mode build is
started and its first terminal event awaited — the whole call rejects with
the build error if that first build errors, and records the watcher once its
first END event fires.  Returns the names of the collected watchers in
order, or the first error encountered. -/
def collectWatchers (clientEnvironment : String) :
    List EnvSpec → Except String (List String)
  | [] => .ok []
  | e :: es =>
      if e.name = clientEnvironment then collectWatchers clientEnvironment es
      else if e.consumer ≠ "client" then collectWatchers clientEnvironment es
      else match e.firstBuildError with
        | some err => .error err
        | none => (collectWatchers clientEnvironment es).map (e.name :: ·)

/-- Transition of `ElectronDevEnvironment.stopBuilder` (src/index.ts:234-240):
with no builder it returns at once; otherwise it destroys the builder (all
watchers closed, all listeners removed) and clears the field. -/
def stopBuilder (s : Session) : Session × List Effect :=
  match s.builder with
  | none => (s, [])
  | some _ => ({ s with builder := none }, [Effect.destroyBuilder])

/-- Stop phase of `init` applied to the previous instance
(src/index.ts:251-254): stop only the previous instance's Electron process,
then only its builder. -/
def stopPrevious (prev : Option Session) : Option Session × List Effect :=
  match prev with
  | none => (none, [])
  | some p =>
      let (p1, e1) := stopElectron p
      let (p2, e2) := stopBuilder p1
      (some p2, e1 ++ e2)

/-- Result of `ElectronDevEnvironment.init`: the rejection error if any, the
successor state of this environment, the successor state of the previous
instance when one was supplied, and the effects performed. -/
structure InitResult where
  error : Option String
  self : Session
  prev : Option Session
  effects : List Effect
  deriving Repr

/-- Transition of `ElectronDevEnvironment.init` (src/index.ts:244-269): when
a previous `ElectronDevEnvironment` instance is supplied, first stop only
that instance's Electron process and then only its builder; then create this
environment's builder via `createElectronBuilder`, which awaits every
non-served client environment's first build.  If builder creation rejects,
`init` rejects with that error and `this.builder` stays unassigned;
otherwise the new builder is stored and base initialization runs. -/
def init (self : Session) (prev : Option Session)
    (clientEnvironment : String) (envs : List EnvSpec) : InitResult :=
  match collectWatchers clientEnvironment envs with
  | .error err => ⟨some err, self, (stopPrevious prev).1, (stopPrevious prev).2⟩
  | .ok ws =>
      ⟨none, { self with builder := some ws },
       (stopPrevious prev).1, (stopPrevious prev).2⟩

/-- Transition of `ElectronDevEnvironment.close` (src/index.ts:287-292): the
server reference is cleared first (so in-flight exit handlers no longer
attempt restarts or further shutdowns), then the Electron process is
stopped, then the builder, and finally the base close runs.  It is total:
it never throws. -/
def close (s : Session) : Session × List Effect :=
  let s0 := { s with server := none }
  let (s1, e1) := stopElectron s0
  let (s2, e2) := stopBuilder s1
  (s2, e1 ++ e2 ++ [Effect.baseClose])

/-- Global state visible to the process-exit and error handlers: the
environment state and the node `process.exitCode` side channel. -/
structure World where
  sess : Session
  exitCode : Option Int
  deriving DecidableEq, Repr

/-- JavaScript `code || 1` with `code : number | null`: null and 0 are falsy
and yield 1, anything else yields itself. -/
def jsOrOne (code : Option Int) : Int :=
  match code with
  | some c => if c = 0 then 1 else c
  | none => 1

/-- Close handler installed on the spawned child (src/index.ts:190-213):
first `this.childProcess` is cleared when it still points to this child;
then, killed by a signal → warn, `process.exitCode = 1`, close the server if
one is held; non-zero (or null) exit code → warn, `process.exitCode = code
|| 1`, close the server if held; exit code 0 while a server reference is
still held → info, `process.exitCode = 0`, close the server; exit code 0
with no server held (a deliberate close is in progress) → do nothing. -/
def onChildClose (child : Pid) (code : Option Int) (signal : Option String)
    (w : World) : World × List Effect :=
  let sess :=
    if w.sess.childProcess = some child then { w.sess with childProcess := none }
    else w.sess
  let closeEff : List Effect :=
    if sess.server.isSome then [Effect.closeServer] else []
  match signal with
  | some sig =>
      ({ sess := sess, exitCode := some 1 },
       [Effect.logWarn ("Electron process exited with signal " ++ sig),
        Effect.setExitCode 1] ++ closeEff)
  | none =>
      if code ≠ some 0 then
        ({ sess := sess, exitCode := some (jsOrOne code) },
         [Effect.logWarn "Electron process exited with code",
          Effect.setExitCode (jsOrOne code)] ++ closeEff)
      else if sess.server.isSome then
        ({ sess := sess, exitCode := some 0 },
         [Effect.logInfo "Electron process exited, goodbye...",
          Effect.setExitCode 0] ++ closeEff)
      else ({ sess := sess, exitCode := w.exitCode }, [])

/-- Transition of `ElectronDevEnvironment.listen` itself
(src/index.ts:271-285): it throws when the server exposes no http server,
records the server reference, registers the `listening` callback and defers
to `super.listen`.  Any later failure of the first Electron start is handled
inside the registered callback and never rejects `listen`. -/
def listen (hasHttpServer : Bool) (url : String) (s : Session) :
    Except String Session :=
  if hasHttpServer then .ok { s with server := some url }
  else .error "HTTP server not available"

/-- The `listening` callback registered by `listen` (src/index.ts:275-282):
it runs `startElectron`; on failure the catch handler logs the error, clears
`this.server`, sets `process.exitCode = 1` and closes the captured server
unconditionally. -/
def onListening (spec : SpawnSpec) (w : World) : World × List Effect :=
  match startElectron spec w.sess with
  | (none, s1, tr) => ({ w with sess := s1 }, tr)
  | (some msg, s1, tr) =>
      ({ sess := { s1 with server := none }, exitCode := some 1 },
       tr ++ [Effect.logError ("Error starting Electron: " ++ msg),
              Effect.setExitCode 1, Effect.closeServer])

/-- Debounced restart action scheduled by `init` (src/index.ts:260-264):
after the quiescence window it runs `startElectron`; a failure is caught at
the debounce boundary — the error is logged, `process.exitCode` is set to 1
and `this.server?.close()` closes the server if one is still held.  The
catch never rethrows: the action is total. -/
def restartAction (spec : SpawnSpec) (w : World) : World × List Effect :=
  match startElectron spec w.sess with
  | (none, s1, tr) => ({ w with sess := s1 }, tr)
  | (some msg, s1, tr) =>
      ({ sess := s1, exitCode := some 1 },
       tr ++ [Effect.logError ("Error restarting Electron: " ++ msg),
              Effect.setExitCode 1] ++
       (if s1.server.isSome then [Effect.closeServer] else []))

/-- Quiescence window of the restart debouncer: the 500 passed to
`setTimeout` in `init` (src/index.ts:264). -/
def debounceWindow : Nat := 500

/-- State of the restart debouncer: the deadline of the pending
`reloadTimeout` if any, and the number of restart-action firings so far. -/
structure Debouncer where
  pending : Option Nat
  fires : Nat
  deriving DecidableEq, Repr

/-- One `onBuildComplete` notification at time `now` (src/index.ts:258-265):
a pending timer whose deadline has already passed fired beforehand (the
event loop ran its callback before this event); a still-pending timer is
cancelled by `clearTimeout`; then `setTimeout` schedules the restart action
for `now + 500`. -/
def debNotify (now : Nat) (d : Debouncer) : Debouncer :=
  let d1 : Debouncer :=
    match d.pending with
    | some deadline =>
        if deadline ≤ now then { pending := none, fires := d.fires + 1 }
        else { d with pending := none }
    | none => d
  { d1 with pending := some (now + debounceWindow) }

/-- Run the debouncer over a time-ordered list of notification instants,
starting with no pending timer and no firings. -/
def debRun (ts : List Nat) : Debouncer :=
  ts.foldl (fun d t => debNotify t d) ⟨none, 0⟩

/-- Total number of restart firings once quiescence lasts forever after the
last notification: any still-pending timer eventually fires. -/
def totalFires (ts : List Nat) : Nat :=
  (debRun ts).fires + (if (debRun ts).pending.isSome then 1 else 0)

/-- Each notification arrives strictly before the deadline of the timer
pending at that moment (i.e. within the current quiescence window). -/
def withinWindow : Nat → List Nat → Prop
  | _, [] => True
  | deadline, t :: ts => t < deadline ∧ withinWindow (t + debounceWindow) ts

/-- Boolean check that a list of instants is ascending from a given first
instant (time-ordered notification times). -/
def sortedLE : Nat → List Nat → Bool
  | _, [] => true
  | a, b :: l => decide (a ≤ b) && sortedLE b l

/-- The closure-captured `reloadTimeout` of `init` (src/index.ts:257)
together with the session and exit-code state. -/
structure Orchestrator where
  world : World
  pendingTimer : Option Nat
  deriving Repr

/-- The `onBuildComplete` callback created in `init`: `clearTimeout` on any
pending timer, then `setTimeout(..., 500)` scheduling the restart action for
`now + 500`. -/
def notifyRebuild (now : Nat) (o : Orchestrator) : Orchestrator :=
  { o with pendingTimer := some (now + debounceWindow) }

/-- Session `close` lifted to the orchestrator: nothing in
`ElectronDevEnvironment.close` (src/index.ts:287-292) touches
`reloadTimeout`, so the pending timer survives unchanged. -/
def closeOrch (o : Orchestrator) : Orchestrator × List Effect :=
  ({ o with world := { o.world with sess := (close o.world.sess).1 } },
   (close o.world.sess).2)

/-- Expiry of the pending `reloadTimeout`: when a timer is pending its
callback runs the debounced restart action. -/
def fireTimer (spec : SpawnSpec) (o : Orchestrator) :
    Orchestrator × List Effect :=
  match o.pendingTimer with
  | none => (o, [])
  | some _ =>
      ({ world := (restartAction spec o.world).1, pendingTimer := none },
       (restartAction spec o.world).2)

/- ========================================================================
   Helper lemmas shared by the claim theorems.
   ======================================================================== -/

/-- Neither stopping a process nor destroying a builder ever spawns a child
or closes a server. -/
theorem stopPrevious_effects (prev : Option Session) :
    (∀ p, Effect.spawnChild p ∉ (stopPrevious prev).2) ∧
    Effect.closeServer ∉ (stopPrevious prev).2 := by
  cases prev with
  | none => simp [stopPrevious]
  | some s =>
    obtain ⟨pc, pb, ps⟩ := s
    cases pc <;> cases pb <;> simp [stopPrevious, stopElectron, stopBuilder]

/-- `close` leaves the environment with no child process, no builder and no
server reference. -/
theorem close_clears (s : Session) : (close s).1 = ⟨none, none, none⟩ := by
  obtain ⟨c, b, sv⟩ := s
  cases c <;> cases b <;> simp [close, stopElectron, stopBuilder]

/-- `startElectron` never changes the recorded server reference. -/
theorem startElectron_server (spec : SpawnSpec) (s : Session) :
    (startElectron spec s).2.1.server = s.server := by
  obtain ⟨c, b, sv⟩ := s
  cases c <;> cases sv <;> cases hok : spec.spawnOk <;>
    simp [startElectron, stopElectron, hok]

/-- `startElectron` itself never emits a server close. -/
theorem startElectron_no_close (spec : SpawnSpec) (s : Session) :
    Effect.closeServer ∉ (startElectron spec s).2.2 := by
  obtain ⟨c, b, sv⟩ := s
  cases c <;> cases sv <;> cases hok : spec.spawnOk <;>
    simp [startElectron, stopElectron, hok]

/-- Auxiliary characterization: `collectWatchers` succeeds exactly when no
background environment's first build errors. -/
theorem collectWatchers_ok_iff (c : String) (envs : List EnvSpec) :
    (∃ ws, collectWatchers c envs = .ok ws) ↔
      ∀ e ∈ envs, isBackground c e = true → e.firstBuildError = none := by
  induction envs with
  | nil => simp [collectWatchers]
  | cons e es ih =>
    simp only [List.forall_mem_cons]
    by_cases h1 : e.name = c
    · rw [show collectWatchers c (e :: es) = collectWatchers c es from by
        simp [collectWatchers, h1]]
      simp [isBackground, h1, ih]
    · by_cases h2 : e.consumer = "client"
      · rw [show collectWatchers c (e :: es) =
            (match e.firstBuildError with
             | some err => .error err
             | none => (collectWatchers c es).map (e.name :: ·)) from by
          simp [collectWatchers, h1, h2]]
        cases hfb : e.firstBuildError with
        | some err => simp [isBackground, h1, h2, hfb]
        | none =>
          simp only [hfb]
          constructor
          · rintro ⟨ws, hws⟩
            refine ⟨by simp, ?_⟩
            cases hrec : collectWatchers c es with
            | error err => rw [hrec] at hws; cases hws
            | ok ws2 => exact ih.mp ⟨ws2, hrec⟩
          · rintro ⟨-, h⟩
            obtain ⟨ws, hws⟩ := ih.mpr h
            exact ⟨e.name :: ws, by rw [hws]; rfl⟩
      · rw [show collectWatchers c (e :: es) = collectWatchers c es from by
          simp [collectWatchers, h1, h2]]
        simp [isBackground, h1, h2, ih]

/-- Auxiliary characterization: a successful `collectWatchers` returns the
names of exactly the background environments, in order. -/
theorem collectWatchers_ok_val (c : String) (envs : List EnvSpec) :
    ∀ ws, collectWatchers c envs = .ok ws →
      ws = (envs.filter (isBackground c)).map EnvSpec.name := by
  induction envs with
  | nil =>
    intro ws h
    simp [collectWatchers] at h
    simp [← h]
  | cons e es ih =>
    intro ws h
    by_cases h1 : e.name = c
    · rw [show collectWatchers c (e :: es) = collectWatchers c es from by
        simp [collectWatchers, h1]] at h
      have hnbg : isBackground c e = false := by
        simp [isBackground, h1]
      simp [List.filter_cons, hnbg, ih ws h]
    · by_cases h2 : e.consumer = "client"
      · rw [show collectWatchers c (e :: es) =
            (match e.firstBuildError with
             | some err => .error err
             | none => (collectWatchers c es).map (e.name :: ·)) from by
          simp [collectWatchers, h1, h2]] at h
        cases hfb : e.firstBuildError with
        | some err => rw [hfb] at h; cases h
        | none =>
          rw [hfb] at h
          cases hrec : collectWatchers c es with
          | error err => rw [hrec] at h; cases h
          | ok ws2 =>
            rw [hrec] at h
            simp only [Except.map] at h
            have hbg : isBackground c e = true := by
              simp [isBackground, bne_iff_ne, h1, h2]
            have hws : ws = e.name :: ws2 := by
              cases h; rfl
            subst hws
            simp [List.filter_cons, hbg, ih ws2 hrec]
      · rw [show collectWatchers c (e :: es) = collectWatchers c es from by
          simp [collectWatchers, h1, h2]] at h
        have hnbg : isBackground c e = false := by
          simp [isBackground, h2]
        simp [List.filter_cons, hnbg, ih ws h]

/-- Auxiliary characterization: a failing `collectWatchers` reports the
first-build error of one of the background environments. -/
theorem collectWatchers_error_mem (c : String) (envs : List EnvSpec) :
    ∀ err, collectWatchers c envs = .error err →
      ∃ e ∈ envs, isBackground c e = true ∧ e.firstBuildError = some err := by
  induction envs with
  | nil => intro err h; simp [collectWatchers] at h
  | cons e es ih =>
    intro err h
    by_cases h1 : e.name = c
    · rw [show collectWatchers c (e :: es) = collectWatchers c es from by
        simp [collectWatchers, h1]] at h
      obtain ⟨x, hx, hbg, hfb⟩ := ih err h
      exact ⟨x, List.mem_cons_of_mem _ hx, hbg, hfb⟩
    · by_cases h2 : e.consumer = "client"
      · rw [show collectWatchers c (e :: es) =
            (match e.firstBuildError with
             | some err => .error err
             | none => (collectWatchers c es).map (e.name :: ·)) from by
          simp [collectWatchers, h1, h2]] at h
        cases hfb : e.firstBuildError with
        | some err2 =>
          rw [hfb] at h
          have he : err2 = err := by cases h; rfl
          subst he
          exact ⟨e, List.mem_cons_self _ _,
            by simp [isBackground, bne_iff_ne, h1, h2], hfb⟩
        | none =>
          rw [hfb] at h
          cases hrec : collectWatchers c es with
          | ok ws2 => rw [hrec] at h; simp [Except.map] at h
          | error err2 =>
            rw [hrec] at h
            simp only [Except.map] at h
            have he : err2 = err := by cases h; rfl
            subst he
            obtain ⟨x, hx, hbg, hfb2⟩ := ih err2 hrec
            exact ⟨x, List.mem_cons_of_mem _ hx, hbg, hfb2⟩
      · rw [show collectWatchers c (e :: es) = collectWatchers c es from by
          simp [collectWatchers, h1, h2]] at h
        obtain ⟨x, hx, hbg, hfb⟩ := ih err h
        exact ⟨x, List.mem_cons_of_mem _ hx, hbg, hfb⟩

/-- Folding further notifications that all arrive inside the currently
pending window never fires the restart action and keeps a timer pending. -/
theorem debFold_within (ts : List Nat) :
    ∀ (d : Debouncer) (deadline : Nat), d.pending = some deadline →
      withinWindow deadline ts →
      (ts.foldl (fun d t => debNotify t d) d).fires = d.fires ∧
      ((ts.foldl (fun d t => debNotify t d) d).pending.isSome = true) := by
  induction ts with
  | nil =>
    intro d deadline hp _
    simp [hp]
  | cons t ts ih =>
    intro d deadline hp hw
    obtain ⟨hlt, hw2⟩ := hw
    have hnle : ¬ deadline ≤ t := not_le.mpr hlt
    have hstep : debNotify t d = ⟨some (t + debounceWindow), d.fires⟩ := by
      simp [debNotify, hp, hnle]
    rw [List.foldl_cons, hstep]
    exact ih _ (t + debounceWindow) rfl hw2

/-- A time-ordered burst of notifications all within one window of the first
arrives within the successively rescheduled windows. -/
theorem withinWindow_of_burst (t0 : Nat) (rest : List Nat)
    (hchain : sortedLE t0 rest = true)
    (hall : ∀ t ∈ rest, t < t0 + debounceWindow) :
    withinWindow (t0 + debounceWindow) rest := by
  induction rest generalizing t0 with
  | nil => trivial
  | cons t ts ih =>
    simp only [sortedLE, Bool.and_eq_true, decide_eq_true_eq] at hchain
    obtain ⟨hle, hchain2⟩ := hchain
    refine ⟨hall t (by simp), ih t hchain2 ?_⟩
    intro x hx
    have hx0 : x < t0 + debounceWindow := hall x (by simp [hx])
    omega

/-- When the spawn is going to fail and a server URL is recorded,
`startElectron` rejects with the spawn error. -/
theorem startElectron_spawn_fail (spec : SpawnSpec) (s : Session) (url : String)
    (hok : spec.spawnOk = false) (hurl : s.server = some url) :
    (startElectron spec s).1 = some "spawn ENOENT" := by
  obtain ⟨pc, pb, ps⟩ := s
  simp only at hurl
  subst hurl
  cases pc <;> simp [startElectron, stopElectron, hok]

/- ========================================================================
   Claim theorems.
   ======================================================================== -/

/-- C1: the process supervisor never holds more than one live process handle.
A `startElectron` issued while a process `p` is held performs exactly one
stop of `p`, followed by exactly one spawn of the new child precisely when
the start succeeds (a server URL is available and the spawn succeeds); the
successor state holds the new child on success and no child on failure, so
at most one live supervised process exists at all times. -/
theorem startElectron_stop_then_start (spec : SpawnSpec) (s : Session) (p : Pid)
    (h : s.childProcess = some p) :
    procEffects (startElectron spec s).2.2 =
      Effect.killChild p ::
        (if s.server.isSome && spec.spawnOk then [Effect.spawnChild spec.pid]
         else []) ∧
    (startElectron spec s).2.1.childProcess =
      (if s.server.isSome && spec.spawnOk then some spec.pid else none) := by
  cases s with
  | mk child builder server =>
    cases h
    cases server with
    | none => simp [startElectron, stopElectron, procEffects]
    | some url =>
      cases hok : spec.spawnOk <;>
        simp [startElectron, stopElectron, procEffects, hok]

/-- Witness for C1 at a concrete running session: stopping pid 3 then
spawning pid 7. -/
theorem startElectron_stop_then_start_witness :
    procEffects (startElectron ⟨7, true⟩ ⟨some 3, none, some "url"⟩).2.2 =
      [Effect.killChild 3, Effect.spawnChild 7] ∧
    (startElectron ⟨7, true⟩ ⟨some 3, none, some "url"⟩).2.1.childProcess =
      some 7 := by
  have h := startElectron_stop_then_start ⟨7, true⟩ ⟨some 3, none, some "url"⟩ 3 rfl
  simpa using h

/-- C2: `init` (through `createElectronBuilder`) begins a watch for every
configured client environment other than the served one and resolves exactly
when each such environment's first build completed without error, the stored
builder then holding exactly those watchers in order; if any first build
errors, `init` rejects with that build's error, and no supervised process is
spawned by `init` in any case. -/
theorem init_first_builds (self : Session) (prev : Option Session)
    (c : String) (envs : List EnvSpec) :
    ((init self prev c envs).error = none ↔
      ∀ e ∈ envs, isBackground c e = true → e.firstBuildError = none) ∧
    ((init self prev c envs).error = none →
      (init self prev c envs).self.builder =
        some ((envs.filter (isBackground c)).map EnvSpec.name)) ∧
    (∀ err, (init self prev c envs).error = some err →
      ∃ e ∈ envs, isBackground c e = true ∧ e.firstBuildError = some err) ∧
    (∀ p, Effect.spawnChild p ∉ (init self prev c envs).effects) := by
  cases hcw : collectWatchers c envs with
  | error err =>
    refine ⟨?_, ?_, ?_, ?_⟩
    · constructor
      · intro h; simp [init, hcw] at h
      · intro h
        obtain ⟨ws, hws⟩ := (collectWatchers_ok_iff c envs).mpr h
        rw [hcw] at hws; cases hws
    · intro h; simp [init, hcw] at h
    · intro err2 h
      have he : err = err2 := by simpa [init, hcw] using h
      subst he
      exact collectWatchers_error_mem c envs err hcw
    · intro p
      have hp := (stopPrevious_effects prev).1 p
      simpa [init, hcw] using hp
  | ok ws =>
    refine ⟨?_, ?_, ?_, ?_⟩
    · constructor
      · intro _; exact (collectWatchers_ok_iff c envs).mp ⟨ws, hcw⟩
      · intro _; simp [init, hcw]
    · intro _
      simp [init, hcw, collectWatchers_ok_val c envs ws hcw]
    · intro err h; simp [init, hcw] at h
    · intro p
      have hp := (stopPrevious_effects prev).1 p
      simpa [init, hcw] using hp

/-- Witness for C2 on concrete environments: with every first build clean,
`init` resolves holding the main and preload watchers; with the main first
build failing, the error of that background environment is reported. -/
theorem init_first_builds_witness :
    (init ⟨none, none, none⟩ none "client"
        [⟨"client", "client", none⟩, ⟨"main", "client", none⟩,
         ⟨"preload", "client", none⟩]).self.builder =
      some ["main", "preload"] ∧
    (∃ e ∈ [(⟨"client", "client", none⟩ : EnvSpec),
            ⟨"main", "client", some "boom"⟩],
      isBackground "client" e = true ∧ e.firstBuildError = some "boom") := by
  constructor
  · have h := (init_first_builds ⟨none, none, none⟩ none "client"
      [⟨"client", "client", none⟩, ⟨"main", "client", none⟩,
       ⟨"preload", "client", none⟩]).2.1 (by decide)
    simpa using h
  · exact (init_first_builds ⟨none, none, none⟩ none "client"
      [⟨"client", "client", none⟩, ⟨"main", "client", some "boom"⟩]).2.2.1
      "boom" (by decide)

/-- C3: the aggregator maintains a single shared active-builds counter.
START increments it and signals nothing; END decrements it and invokes
`onBuildComplete` exactly when the counter returns to zero; a rebuild ERROR
is logged with the originating environment's name, leaves the counter and
the signal count unchanged (the aggregator keeps running), and does not
suppress the completion signal of the subsequent END event. -/
theorem handleWatchEvent_counter (environment msg : String) (s : AggState) :
    handleWatchEvent environment s .buildStart =
      { s with runningBuilds := s.runningBuilds + 1 } ∧
    handleWatchEvent environment s .buildEnd =
      { s with runningBuilds := s.runningBuilds - 1,
               buildCompleteSignals :=
                 if s.runningBuilds - 1 = 0 then s.buildCompleteSignals + 1
                 else s.buildCompleteSignals } ∧
    ((handleWatchEvent environment s (.buildError msg)).runningBuilds =
        s.runningBuilds ∧
     (handleWatchEvent environment s (.buildError msg)).buildCompleteSignals =
        s.buildCompleteSignals ∧
     (handleWatchEvent environment s (.buildError msg)).errorsLogged =
        s.errorsLogged ++ [environment ++ ": Error compiling " ++ msg]) ∧
    (handleWatchEvent environment
        (handleWatchEvent environment s (.buildError msg)) .buildEnd).runningBuilds =
      (handleWatchEvent environment s .buildEnd).runningBuilds ∧
    (handleWatchEvent environment
        (handleWatchEvent environment s (.buildError msg)) .buildEnd).buildCompleteSignals =
      (handleWatchEvent environment s .buildEnd).buildCompleteSignals := by
  refine ⟨rfl, rfl, ⟨rfl, rfl, rfl⟩, rfl, rfl⟩

/-- C4: each notification cancels any pending timer and schedules a fresh
one a full quiescence window ahead; a time-ordered burst of notifications
all within one window of the first produces exactly one restart firing, and
two notifications more than the window apart produce exactly two — the
restart action never fires more than once per window of inactivity. -/
theorem debounce_restart_counts (t0 u v : Nat) (rest : List Nat)
    (hchain : sortedLE t0 rest = true)
    (hall : ∀ t ∈ rest, t < t0 + debounceWindow)
    (hgap : u + debounceWindow < v) :
    (∀ now d, (debNotify now d).pending = some (now + debounceWindow)) ∧
    totalFires (t0 :: rest) = 1 ∧
    totalFires [u, v] = 2 := by
  refine ⟨fun now d => rfl, ?_, ?_⟩
  · have hw : withinWindow (t0 + debounceWindow) rest :=
      withinWindow_of_burst t0 rest hchain hall
    have hD : debRun (t0 :: rest) =
        rest.foldl (fun d t => debNotify t d) ⟨some (t0 + debounceWindow), 0⟩ := rfl
    obtain ⟨hf, hp⟩ :=
      debFold_within rest ⟨some (t0 + debounceWindow), 0⟩ (t0 + debounceWindow) rfl hw
    simp [totalFires, hD, hf, hp]
  · have hle : u + debounceWindow ≤ v := Nat.le_of_lt hgap
    simp [totalFires, debRun, debNotify, hle]

/-- Witness for C4: three notifications at 0, 100 and 499 (all inside one
window) fire once; notifications at 0 and 501 fire twice. -/
theorem debounce_restart_counts_witness :
    totalFires [0, 100, 499] = 1 ∧ totalFires [0, 501] = 2 := by
  have h := debounce_restart_counts 0 0 501 [100, 499]
    (by decide) (by decide) (by decide)
  exact ⟨h.2.1, h.2.2⟩

/-- C5: the exit handler's decision depends only on (code, signal,
session-open).  While a server reference is held: a signal kill sets exit
status 1 (non-zero) and closes the serving socket; a non-zero exit code `c`
sets the non-zero status `c` and closes the socket; a zero exit code closes
the session gracefully with status 0.  In every case no process is spawned:
the handler never restarts. -/
theorem exit_handler_decision (w : World) (child : Pid) (code : Option Int)
    (sig : String) (c : Int)
    (hopen : w.sess.server.isSome = true) (hc : c ≠ 0) :
    ((onChildClose child code (some sig) w).1.exitCode = some 1 ∧
     Effect.closeServer ∈ (onChildClose child code (some sig) w).2 ∧
     ∀ p, Effect.spawnChild p ∉ (onChildClose child code (some sig) w).2) ∧
    ((onChildClose child (some c) none w).1.exitCode = some c ∧
     Effect.closeServer ∈ (onChildClose child (some c) none w).2 ∧
     ∀ p, Effect.spawnChild p ∉ (onChildClose child (some c) none w).2) ∧
    ((onChildClose child (some 0) none w).1.exitCode = some 0 ∧
     Effect.closeServer ∈ (onChildClose child (some 0) none w).2 ∧
     ∀ p, Effect.spawnChild p ∉ (onChildClose child (some 0) none w).2) := by
  have hsrv : (if w.sess.childProcess = some child
      then { w.sess with childProcess := none } else w.sess).server.isSome = true := by
    by_cases hcc : w.sess.childProcess = some child <;> simp [hcc, hopen]
  refine ⟨⟨?_, ?_, ?_⟩, ⟨?_, ?_, ?_⟩, ⟨?_, ?_, ?_⟩⟩ <;>
    simp [onChildClose, hsrv, jsOrOne, hc]

/-- Witness for C5 at a concrete open session holding child 3: killed by
SIGKILL gives status 1; exit code 2 gives status 2; exit code 0 gives
status 0, each closing the server. -/
theorem exit_handler_decision_witness :
    (onChildClose 3 none (some "SIGKILL") ⟨⟨some 3, none, some "u"⟩, none⟩).1.exitCode =
      some 1 ∧
    (onChildClose 3 (some 2) none ⟨⟨some 3, none, some "u"⟩, none⟩).1.exitCode =
      some 2 ∧
    (onChildClose 3 (some 0) none ⟨⟨some 3, none, some "u"⟩, none⟩).1.exitCode =
      some 0 ∧
    Effect.closeServer ∈
      (onChildClose 3 (some 0) none ⟨⟨some 3, none, some "u"⟩, none⟩).2 := by
  have h := exit_handler_decision ⟨⟨some 3, none, some "u"⟩, none⟩ 3 none
    "SIGKILL" 2 rfl (by decide)
  exact ⟨h.1.1, h.2.1.1, h.2.2.1, h.2.2.2.1⟩

/-- C6 counterexample: with the Electron spawn failing (ENOENT), `listen`
itself still resolves — the rejection of the first `startElectron` is caught
inside the registered `listening` callback and never propagates to
`listen`'s own promise, so the claim that `listen` rejects is false at this
input. -/
theorem listen_no_reject_counterexample :
    listen true "http://localhost/" ⟨none, none, none⟩ =
      .ok ⟨none, none, some "http://localhost/"⟩ ∧
    (startElectron ⟨7, false⟩ ⟨none, none, some "http://localhost/"⟩).1 =
      some "spawn ENOENT" := by
  exact ⟨rfl, rfl⟩

/-- C6 amended: when the first `startElectron` run by the `listening`
callback fails to spawn, `listen` itself does not reject; instead the
callback's catch handler clears the recorded server reference, sets the
session exit status to the non-zero value 1, logs the error, and closes the
hosting serving socket. -/
theorem listen_spawn_failure (w : World) (spec : SpawnSpec) (url : String)
    (hok : spec.spawnOk = false) (hurl : w.sess.server = some url) :
    (onListening spec w).1.sess.server = none ∧
    (onListening spec w).1.exitCode = some 1 ∧
    Effect.closeServer ∈ (onListening spec w).2 ∧
    (∃ m, Effect.logError m ∈ (onListening spec w).2) := by
  have herr : (startElectron spec w.sess).1 = some "spawn ENOENT" :=
    startElectron_spawn_fail spec w.sess url hok hurl
  rcases hr : startElectron spec w.sess with ⟨err, s1, tr⟩
  rw [hr] at herr
  simp only at herr
  subst herr
  simp only [onListening, hr]
  exact ⟨by simp, by simp, by simp,
    ⟨"Error starting Electron: " ++ "spawn ENOENT", by simp⟩⟩

/-- Witness for C6 at a concrete session with a recorded server and a spawn
failing with ENOENT. -/
theorem listen_spawn_failure_witness :
    (onListening ⟨7, false⟩ ⟨⟨none, none, some "u"⟩, none⟩).1.sess.server = none ∧
    (onListening ⟨7, false⟩ ⟨⟨none, none, some "u"⟩, none⟩).1.exitCode = some 1 ∧
    Effect.closeServer ∈ (onListening ⟨7, false⟩ ⟨⟨none, none, some "u"⟩, none⟩).2 := by
  have h := listen_spawn_failure ⟨⟨none, none, some "u"⟩, none⟩ ⟨7, false⟩ "u"
    rfl rfl
  exact ⟨h.1, h.2.1, h.2.2.1⟩

/-- C7: `close` tears down in the fixed order — the server reference is
cleared first (already absent from the successor state handed to the stop
phase), then the Electron process is stopped, then the builder destroyed,
then the base close runs, in exactly that trace order; and `close` is
idempotent: a second call performs no further kill or destroy, throws
nothing (it is total), and leaves no live supervised process. -/
theorem close_teardown_idempotent (s : Session) :
    (close s).1 = ⟨none, none, none⟩ ∧
    (close s).2 =
      (match s.childProcess with
       | none => []
       | some pid =>
           [Effect.logWarn "Stopping Electron process...",
            Effect.killChild pid]) ++
      (match s.builder with
       | none => []
       | some _ => [Effect.destroyBuilder]) ++
      [Effect.baseClose] ∧
    close (close s).1 = (⟨none, none, none⟩, [Effect.baseClose]) := by
  refine ⟨close_clears s, ?_, by rw [close_clears s]; rfl⟩
  obtain ⟨c, b, sv⟩ := s
  cases c <;> cases b <;> simp [close, stopElectron, stopBuilder]

/-- C8: recycling — `init` called with a previous instance stops exactly
that instance's Electron process and its builder: the previous instance's
server reference is untouched and no server close happens; the kill and
destroy effects are exactly those for the previous instance's held process
and builder; and the new instance's child process and server are unchanged,
its state being modified only by storing its freshly created builder (and
not at all when builder creation fails). -/
theorem init_previous_frame (self prevS : Session) (c : String)
    (envs : List EnvSpec) :
    ((init self (some prevS) c envs).prev =
      some { prevS with childProcess := none, builder := none }) ∧
    (∀ pid, Effect.killChild pid ∈ (init self (some prevS) c envs).effects ↔
      prevS.childProcess = some pid) ∧
    (Effect.destroyBuilder ∈ (init self (some prevS) c envs).effects ↔
      prevS.builder.isSome = true) ∧
    Effect.closeServer ∉ (init self (some prevS) c envs).effects ∧
    (init self (some prevS) c envs).self.childProcess = self.childProcess ∧
    (init self (some prevS) c envs).self.server = self.server ∧
    ((init self (some prevS) c envs).error.isSome = true →
      (init self (some prevS) c envs).self = self) := by
  obtain ⟨pc, pb, ps⟩ := prevS
  obtain ⟨sc, sb, ss⟩ := self
  cases hcw : collectWatchers c envs <;> cases pc <;> cases pb <;>
    simp [init, stopPrevious, stopElectron, stopBuilder, hcw, eq_comm]

/-- Witness for C8: recycling from a previous instance holding child 5 and a
builder kills exactly pid 5 and, on a failing first build, leaves the new
instance untouched. -/
theorem init_previous_frame_witness :
    Effect.killChild 5 ∈
      (init ⟨none, none, none⟩ (some ⟨some 5, some ["main"], some "u"⟩)
        "client" [⟨"main", "client", some "boom"⟩]).effects ∧
    (init ⟨none, none, none⟩ (some ⟨some 5, some ["main"], some "u"⟩)
        "client" [⟨"main", "client", some "boom"⟩]).self =
      ⟨none, none, none⟩ := by
  have h := init_previous_frame ⟨none, none, none⟩
    ⟨some 5, some ["main"], some "u"⟩ "client"
    [⟨"main", "client", some "boom"⟩]
  exact ⟨(h.2.1 5).mpr rfl, h.2.2.2.2.2.2 (by decide)⟩

/-- C9: a failure of the debounced restart action is caught at the debounce
boundary (the action is a total function, nothing propagates): the error is
reported through the logger, the session exit status is set to the non-zero
value 1, and — exactly as on an abnormal process exit — the serving socket
is closed precisely when a server reference is still held. -/
theorem restartAction_failure (spec : SpawnSpec) (w : World) (msg : String)
    (herr : (startElectron spec w.sess).1 = some msg) :
    (∃ m, Effect.logError m ∈ (restartAction spec w).2) ∧
    (restartAction spec w).1.exitCode = some 1 ∧
    (Effect.closeServer ∈ (restartAction spec w).2 ↔
      w.sess.server.isSome = true) := by
  rcases hr : startElectron spec w.sess with ⟨err, s1, tr⟩
  rw [hr] at herr
  simp only at herr
  subst herr
  have hsrv : s1.server = w.sess.server := by
    have := startElectron_server spec w.sess
    rw [hr] at this
    exact this
  have hnc : Effect.closeServer ∉ tr := by
    have := startElectron_no_close spec w.sess
    rw [hr] at this
    exact this
  simp only [restartAction, hr]
  refine ⟨⟨"Error restarting Electron: " ++ msg, by simp⟩, by simp, ?_⟩
  rw [hsrv]
  cases hsome : w.sess.server.isSome <;> simp [hsome, hnc]

/-- Witness for C9 at a concrete session holding child 2 and a server, with
the respawn failing: the error is logged, the status becomes 1 and the
server closes. -/
theorem restartAction_failure_witness :
    (restartAction ⟨9, false⟩ ⟨⟨some 2, none, some "u"⟩, none⟩).1.exitCode =
      some 1 ∧
    Effect.closeServer ∈ (restartAction ⟨9, false⟩ ⟨⟨some 2, none, some "u"⟩, none⟩).2 := by
  have h := restartAction_failure ⟨9, false⟩ ⟨⟨some 2, none, some "u"⟩, none⟩
    "spawn ENOENT" rfl
  exact ⟨h.2.1, h.2.2.mpr rfl⟩

/-- C10: `close` does not cancel a pending restart-debounce timer.  After a
rebuild notification at time `now` followed by `close`, the timer scheduled
for `now + 500` is still pending; when it fires, the restart attempt fails
because the server reference was cleared by `close`, and the catch handler
logs the error and sets `process.exitCode` to 1 while closing no server and
spawning no process — so closing a session with a pending debounce timer
ends with a non-zero exit status. -/
theorem close_pending_timer (o : Orchestrator) (now : Nat) (spec : SpawnSpec) :
    ((closeOrch (notifyRebuild now o)).1.pendingTimer =
      some (now + debounceWindow)) ∧
    ((fireTimer spec (closeOrch (notifyRebuild now o)).1).1.world.exitCode =
      some 1) ∧
    (∃ m, Effect.logError m ∈
      (fireTimer spec (closeOrch (notifyRebuild now o)).1).2) ∧
    (Effect.closeServer ∉
      (fireTimer spec (closeOrch (notifyRebuild now o)).1).2) ∧
    (∀ p, Effect.spawnChild p ∉
      (fireTimer spec (closeOrch (notifyRebuild now o)).1).2) := by
  have hsess : (close o.world.sess).1 = ⟨none, none, none⟩ :=
    close_clears o.world.sess
  refine ⟨rfl, ?_, ⟨"Error restarting Electron: " ++
      "Cannot start Electron: server URL not available", ?_⟩, ?_, ?_⟩ <;>
    simp [fireTimer, closeOrch, notifyRebuild, restartAction, startElectron,
      stopElectron, hsess]

end ViteElectron
